import Mathlib

/-!
Shallow embedding of `src/utils/renderer_utils.py` (lightning_track).

The module wraps pytorch3d: three `nn.Module` classes (`Mesh_Renderer`,
`Point_Renderer`, `Texture_Renderer`) that marshal parameters and call the
external rasterizer.  We embed the wrapper code faithfully; the external
pytorch3d calls (`load_obj`, `look_at_view_transform`, the rasterizer/shader
pipelines, `torch.rand_like`, `torch.randperm`) are modelled opaquely:
deterministic external functions are represented by records carrying their
arguments, and per-call renderer invocations / random draws are explicit
function / stream parameters of the embedded methods.

Tensors are embedded as nested lists of `Rat` (a `(B, N, 3)` float tensor
becomes `List (List Point3)`); `permute` is a pure reshape and never changes
the element values, so images are kept as flattened per-batch value lists.
-/

set_option autoImplicit false

namespace RendererUtils

/-- A 3-component point / colour / vector (one row of an `(·, 3)` tensor). -/
abbrev Point3 := Rat × Rat × Rat

/-- One triangle of a face-index tensor: the three vertex indices of a face
(row of an `(F, 3)` integer tensor). -/
abbrev Face := Nat × Nat × Nat

/-- pytorch3d `look_at_view_transform(dist, elev, azim)` is an external
deterministic function; we model its result `(R, T)` opaquely by the
arguments that determine it. -/
structure ViewTransform where
  dist : Rat
  elev : Rat
  azim : Rat
deriving DecidableEq, Repr

/-- `look_at_view_transform(D, E, A)` (external, deterministic). -/
def look_at_view_transform (D E A : Rat) : ViewTransform := ⟨D, E, A⟩

/-- pytorch3d `FoVPerspectiveCameras(device=..., R=R, T=T, znear=..., zfar=...)`,
modelled by its constructor arguments (the `(R, T)` pair is determined by the
`ViewTransform` that produced it). -/
structure FoVPerspectiveCameras where
  device : String
  view : ViewTransform
  znear : Rat
  zfar : Rat
deriving DecidableEq, Repr

/-- pytorch3d `RasterizationSettings` as used by `Mesh_Renderer.__init__`. -/
structure RasterizationSettings where
  image_size : Nat
  blur_radius : Rat
  faces_per_pixel : Nat
deriving DecidableEq, Repr

/-- pytorch3d `PointLights(device=..., location=...)`. -/
structure PointLights where
  device : String
  location : List (List Rat)
deriving DecidableEq, Repr

/-- One RGBA pixel of the external renderer's `(B, H, W, 4)` output. -/
structure RGBA where
  r : Rat
  g : Rat
  b : Rat
  a : Rat
deriving DecidableEq, Repr

/-- pytorch3d `PerspectiveCameras(**cameras_kwargs, R=..., T=...)` as built by
`Mesh_Renderer._build_cameras`; fields are the constructor arguments. -/
structure PerspectiveCameras where
  principal_point : List (List Rat)
  focal_length : List (List Rat)
  image_size : List (List Rat)
  device : String
  R : List (List (List Rat))
  T : List (List Rat)
deriving DecidableEq, Repr

/-- pytorch3d `Meshes(verts=..., faces=..., textures=TexturesVertex(...))`
with per-vertex colour features. -/
structure Meshes where
  verts : List (List Point3)
  faces : List (List Face)
  textures : List (List Point3)
deriving DecidableEq, Repr

/-! ## Mesh_Renderer -/

/-- The fields `Mesh_Renderer.__init__` stores on `self`. -/
structure Mesh_Renderer where
  device : String
  image_size : Nat
  faces : List Face
  raster_settings : RasterizationSettings
  lights : PointLights
deriving DecidableEq, Repr

namespace Mesh_Renderer

/-- `Mesh_Renderer.__init__(image_size, obj_filename=None, faces=None, device='cpu')`.

`load_obj` is the external pytorch3d loader, modelled as a function from the
filename to the loaded `faces.verts_idx`; the `faces.astype(np.int32)` /
`torch.tensor` conversion of the raw-array branch is value-preserving on
(nonnegative, in-range) face indices.  `raise NotImplementedError` is embedded
as `Except.error`. -/
def init (load_obj : String → List Face) (image_size : Nat)
    (obj_filename : Option String) (faces : Option (List Face))
    (device : String) : Except String Mesh_Renderer :=
  match obj_filename with
  | some fn =>
      .ok { device, image_size, faces := load_obj fn,
            raster_settings :=
              { image_size, blur_radius := 0, faces_per_pixel := 1 },
            lights := { device, location := [[0, 0, 3]] } }
  | none =>
      match faces with
      | some fs =>
          .ok { device, image_size, faces := fs,
                raster_settings :=
                  { image_size, blur_radius := 0, faces_per_pixel := 1 },
                lights := { device, location := [[0, 0, 3]] } }
      | none => .error "Must have faces."

/-- `Mesh_Renderer._build_cameras(transform_matrix, focal_length, principal_point)`:
`transform_matrix` is a batch of 4×4 matrices (`List` of row lists);
`R = transform_matrix[:, :3, :3]` and `T = transform_matrix[:, :3, 3]`. -/
def build_cameras (self : Mesh_Renderer)
    (transform_matrix : List (List (List Rat)))
    (focal_length : List (List Rat)) (principal_point : List Rat) :
    PerspectiveCameras :=
  let batch_size := transform_matrix.length
  let screen_size :=
    List.replicate batch_size [(self.image_size : Rat), (self.image_size : Rat)]
  { principal_point := List.replicate batch_size principal_point,
    focal_length := focal_length,
    image_size := screen_size,
    device := self.device,
    R := transform_matrix.map (fun m => (m.take 3).map (fun row => row.take 3)),
    T := transform_matrix.map (fun m => (m.take 3).map (fun row => row.getD 3 0)) }

/-- `Mesh_Renderer.forward(vertices, cameras=None, transform_matrix=None,
focal_length=None, principal_point=None)`.

`render` is the external `MeshRenderer(rasterizer, shader)` pipeline, modelled
as an opaque function from the camera, raster settings, lights and the
assembled mesh to the `(B, H*W)` RGBA pixel grid (after the `permute`, which
only reshapes).  Returns the unchanged `self` (the body assigns no attribute)
together with `(images*255, alpha_images)`. -/
def forward
    (render : PerspectiveCameras → RasterizationSettings → PointLights →
      Meshes → List (List RGBA))
    (self : Mesh_Renderer) (vertices : List (List Point3))
    (cameras : Option PerspectiveCameras)
    (transform_matrix : List (List (List Rat)))
    (focal_length : List (List Rat)) (principal_point : List Rat) :
    Mesh_Renderer × List (List Point3) × List (List Rat) :=
  let cams := match cameras with
    | some c => c
    | none => self.build_cameras transform_matrix focal_length principal_point
  let faces := List.replicate vertices.length self.faces
  -- verts_rgb = torch.ones_like(vertices): each vertex white.
  let verts_rgb := vertices.map (fun row => row.map (fun _ => ((1 : Rat), (1 : Rat), (1 : Rat))))
  let mesh : Meshes := { verts := vertices, faces := faces, textures := verts_rgb }
  let render_results := render cams self.raster_settings self.lights mesh
  let images := render_results.map (fun px => px.map (fun p => (p.r, p.g, p.b)))
  let alpha_images := render_results.map (fun px => px.map (fun p => p.a))
  (self,
   images.map (fun px => px.map (fun c => (c.1 * 255, c.2.1 * 255, c.2.2 * 255))),
   alpha_images)

end Mesh_Renderer

end RendererUtils

namespace RendererUtils

/-! ## Point_Renderer -/

/-- The fields `Point_Renderer.__init__` stores on `self` (the
`PointsRasterizationSettings` / `PointsRenderer` configuration is fixed at
construction and read-only; the `self.cameras` field is the one read and
re-assigned by `forward`). -/
structure Point_Renderer where
  device : String
  image_size : Nat
  cameras : FoVPerspectiveCameras
deriving DecidableEq, Repr

namespace Point_Renderer

/-- `Point_Renderer.__init__(image_size=256, device='cpu')`:
`R, T = look_at_view_transform(4, 30, 30)` and
`self.cameras = FoVPerspectiveCameras(device,R,T,znear=0.01,zfar=1.0)`. -/
def init (image_size : Nat) (device : String) : Point_Renderer :=
  { device, image_size,
    cameras := { device, view := look_at_view_transform 4 30 30,
                 znear := 1/100, zfar := 1 } }

/-- The camera-update prefix of `Point_Renderer.forward`:
`if D != 8 or E != 30 or A != 30:` rebuild `self.cameras` from
`look_at_view_transform(D, E, A)` with `znear=0.01, zfar=1.0`. -/
def updateCameras (self : Point_Renderer) (D E A : Rat) : Point_Renderer :=
  if D ≠ 8 ∨ E ≠ 30 ∨ A ≠ 30 then
    { self with cameras := { device := self.device,
                             view := look_at_view_transform D E A,
                             znear := 1/100, zfar := 1 } }
  else self

end Point_Renderer

/-- `verts.shape[1]` of a `(B, N, 3)` tensor embedded as a list of rows
(all rows of a tensor have equal length). -/
def shape1 {α : Type} (rows : List (List α)) : Nat := (rows.headD []).length

/-- Column gather `verts[:, idx]`: select the columns listed in `idx` from
every row (torch requires every index in range; out-of-range would raise). -/
def gatherCols {α : Type} (rows : List (List α)) (idx : List Nat) :
    List (List α) :=
  rows.map (fun row => idx.filterMap (fun i => row.get? i))

/-- `torch.linspace(0, 1.0, steps=n)`: `n` evenly spaced values from 0 to 1
(`[0]` for `steps=1`, empty for `steps=0`). -/
def linspace01 (steps : Nat) : List Rat :=
  if steps = 1 then [0]
  else (List.range steps).map (fun (i : Nat) => (i : Rat) / ((steps : Rat) - 1))

/-- The `cod` tensor of `Point_Renderer.forward` for `coords_size = c`:
`new_zeros(c*3, 3)` whose first `c` rows get `linspace` in column 0, the next
`c` rows in column 1 and the last `c` rows in column 2. -/
def coordPoints (c : Nat) : List Point3 :=
  (linspace01 c).map (fun x => (x, (0 : Rat), (0 : Rat))) ++
  (linspace01 c).map (fun x => ((0 : Rat), x, (0 : Rat))) ++
  (linspace01 c).map (fun x => ((0 : Rat), (0 : Rat), x))

namespace Point_Renderer

/-- The point-cloud assembly of `Point_Renderer.forward`:
`verts = verts[:, torch.randperm(verts.shape[1])[:10000]]`, then the optional
`torch.cat` with `ex_points` (broadcast over the batch), then the optional
`torch.cat` with the `cod` axis points (`coords_size = verts.shape[1]//10`,
also broadcast over the batch).  `perm` is the explicit outcome of the
external `torch.randperm(verts.shape[1])` draw. -/
def buildVerts (points : List (List Point3)) (perm : List Nat)
    (coords : Bool) (ex_points : Option (List Point3)) :
    List (List Point3) :=
  let verts := gatherCols points (perm.take 10000)
  let verts := match ex_points with
    | some ex => verts.map (fun row => row ++ ex)
    | none => verts
  if coords then
    let coords_size := shape1 verts / 10
    verts.map (fun row => row ++ coordPoints coords_size)
  else verts

/-- `Point_Renderer.forward(points, D=3, E=15, A=30, coords=True,
ex_points=None)`.

Explicit model parameters for the externals: `perm` is the
`torch.randperm(verts.shape[1])` draw, `rng` the `torch.rand_like(verts)`
draw (the per-point RGB features), and `render` the external
`PointsRenderer` pipeline from the current cameras, the assembled point
cloud and its colour features to the flattened image values (after the
value-preserving `permute`).  Returns the post-call `self` (whose `cameras`
field the body may have re-assigned) and `images*255`. -/
def forward
    (render : FoVPerspectiveCameras → List (List Point3) →
      List (List Point3) → List Rat)
    (self : Point_Renderer) (points : List (List Point3))
    (D E A : Rat) (coords : Bool) (ex_points : Option (List Point3))
    (perm : List Nat) (rng : List (List Point3)) :
    Point_Renderer × List Rat :=
  let self := self.updateCameras D E A
  let verts := buildVerts points perm coords ex_points
  let rgb := rng
  let images := render self.cameras verts rgb
  (self, images.map (fun x => x * 255))

end Point_Renderer

/-! ## Texture_Renderer -/

/-- `aux.verts_uvs`, `faces.textures_idx`, `faces.verts_idx` of the external
`load_obj` on the FLAME head-template mesh, modelled opaquely as data. -/
structure ObjData where
  verts_uvs : List (Rat × Rat)
  textures_idx : List Face
  verts_idx : List Face
deriving DecidableEq, Repr

/-- pytorch3d `RasterizationSettings` as used by `Texture_Renderer.__init__`
(with the perspective-correct / backface-culling flags). -/
structure TexRasterizationSettings where
  image_size : Nat
  blur_radius : Rat
  faces_per_pixel : Nat
  perspective_correct : Bool
  cull_backfaces : Bool
deriving DecidableEq, Repr

/-- pytorch3d `TexturesUV(maps=..., faces_uvs=..., verts_uvs=...)`. -/
structure TexturesUV where
  maps : List (List Point3)
  faces_uvs : List (List Face)
  verts_uvs : List (List (Rat × Rat))
deriving DecidableEq, Repr

/-- pytorch3d `Meshes` with a UV texture, as assembled by
`Texture_Renderer.forward`. -/
structure MeshesUV where
  verts : List (List Point3)
  faces : List (List Face)
  textures : TexturesUV
deriving DecidableEq, Repr

/-- The fields `Texture_Renderer.__init__` stores on `self`.  In Python the
`flame_mask` attribute is only assigned when the `flame_mask` argument is not
`None` (`forward` tests `hasattr(self, 'flame_mask')`), which `Option` models
directly. -/
structure Texture_Renderer where
  device : String
  uvverts : List (Rat × Rat)
  uvfaces : List Face
  faces : List Face
  raster_settings : TexRasterizationSettings
  flame_mask : Option (List Bool)
deriving DecidableEq, Repr

namespace Texture_Renderer

/-- The per-face loop of `Texture_Renderer.__init__`: for each face count how
many of its three vertex indices are `in flame_mask`, and keep `True` exactly
when the count is 3. -/
def countValid (f : Face) (flame_mask : List Nat) : Nat :=
  (if f.1 ∈ flame_mask then 1 else 0) +
  (if f.2.1 ∈ flame_mask then 1 else 0) +
  (if f.2.2 ∈ flame_mask then 1 else 0)

/-- `reduced_faces`: the boolean per-face mask built by the construction loop. -/
def reducedFaces (faces : List Face) (flame_mask : List Nat) : List Bool :=
  faces.map (fun f => decide (countValid f flame_mask = 3))

/-- `Texture_Renderer.__init__(image_size, flame_path, flame_mask=None,
device='cpu')`.  `load_obj` is the external loader applied to
`flame_path + '/FLAME_embedding/head_template_mesh.obj'`, modelled as a
function of `flame_path`; the `flame_mask` argument is the optional
vertex-index set (membership list). -/
def init (load_obj : String → ObjData) (image_size : Nat)
    (flame_path : String) (flame_mask : Option (List Nat))
    (device : String) : Texture_Renderer :=
  let obj := load_obj flame_path
  { device,
    uvverts := obj.verts_uvs,
    uvfaces := obj.textures_idx,
    faces := obj.verts_idx,
    raster_settings :=
      { image_size, blur_radius := 0, faces_per_pixel := 1,
        perspective_correct := true, cull_backfaces := true },
    flame_mask := flame_mask.map (fun m => reducedFaces obj.verts_idx m) }

/-- Boolean-mask face selection `faces[:, self.flame_mask]`: keep the faces
whose mask entry is `True`. -/
def maskSelect (faces : List Face) (mask : List Bool) : List Face :=
  (faces.zip mask).filterMap (fun fb => if fb.2 then some fb.1 else none)

/-- `Texture_Renderer.forward(vertices_world, texture_images, cameras)`.

`render_phong` and `render_sil` are the external Phong / silhouette
`MeshRenderer` pipelines, opaque functions to the `(B, H*W)` RGBA pixel
grids; `cameras` is the caller-supplied camera object.  Returns the
unchanged `self` (the body assigns no attribute) together with
`(images, masks_all, masks_face)`; the two masks are the `> 0.0` thresholds
of the alpha channels, and `masks_face` is `none` when no `flame_mask`
attribute exists. -/
def forward
    (render_phong : PerspectiveCameras → TexRasterizationSettings →
      MeshesUV → List (List RGBA))
    (render_sil : PerspectiveCameras → TexRasterizationSettings →
      Meshes → List (List RGBA))
    (self : Texture_Renderer) (vertices_world : List (List Point3))
    (texture_images : List Point3) (cameras : PerspectiveCameras) :
    Texture_Renderer × List (List Point3) × List (List Bool) ×
      Option (List (List Bool)) :=
  let batch_size := vertices_world.length
  let faces := List.replicate batch_size self.faces
  let textures_uv : TexturesUV :=
    { maps := List.replicate batch_size texture_images,
      faces_uvs := List.replicate batch_size self.uvfaces,
      verts_uvs := List.replicate batch_size self.uvverts }
  let meshes_world : MeshesUV :=
    { verts := vertices_world, faces := faces, textures := textures_uv }
  let image_ref := render_phong cameras self.raster_settings meshes_world
  let images := image_ref.map (fun px => px.map (fun p => (p.r, p.g, p.b)))
  let masks_all := image_ref.map (fun px => px.map (fun p => decide (p.a > 0)))
  let masks_face := match self.flame_mask with
    | some fm =>
        -- verts_features = vertices_world.new_ones(...): all-ones features.
        let textures_verts := vertices_world.map
          (fun row => row.map (fun _ => ((1 : Rat), (1 : Rat), (1 : Rat))))
        let meshes_masked : Meshes :=
          { verts := vertices_world,
            faces := faces.map (fun fs => maskSelect fs fm),
            textures := textures_verts }
        let mf := render_sil cameras self.raster_settings meshes_masked
        some (mf.map (fun px => px.map (fun p => decide (p.a > 0))))
    | none => none
  (self, images, masks_all, masks_face)

end Texture_Renderer

/-! ## Concrete instances used by witnesses and counterexamples -/

/-- A trivial external points-renderer (returns an empty image). -/
def pointRenderNil : FoVPerspectiveCameras → List (List Point3) →
    List (List Point3) → List Rat := fun _ _ _ => []

/-- An external points-renderer producing the single raw pixel value `v`. -/
def pointRenderConst (v : Rat) : FoVPerspectiveCameras → List (List Point3) →
    List (List Point3) → List Rat := fun _ _ _ => [v]

/-- An external mesh-renderer pipeline producing one pixel with the given RGBA
value. -/
def meshRenderConst (p : RGBA) : PerspectiveCameras → RasterizationSettings →
    PointLights → Meshes → List (List RGBA) := fun _ _ _ _ => [[p]]

/-- A concrete caller-supplied camera object. -/
def camera0 : PerspectiveCameras :=
  { principal_point := [], focal_length := [], image_size := [],
    device := "cpu", R := [], T := [] }

/-- A concrete `Mesh_Renderer` instance (one triangle, image size 4). -/
def meshR0 : Mesh_Renderer :=
  { device := "cpu", image_size := 4, faces := [(0, 1, 2)],
    raster_settings := { image_size := 4, blur_radius := 0, faces_per_pixel := 1 },
    lights := { device := "cpu", location := [[0, 0, 3]] } }

/-- A concrete external obj loader for `Texture_Renderer` witnesses: two
faces, the first fully inside `{0,1,2}`, the second not. -/
def objLoader0 : String → ObjData :=
  fun _ => { verts_uvs := [], textures_idx := [], verts_idx := [(0, 1, 2), (0, 1, 5)] }

/-- A concrete `Texture_Renderer` instance with no configured flame mask. -/
def texR0 : Texture_Renderer :=
  { device := "cpu", uvverts := [], uvfaces := [], faces := [],
    raster_settings :=
      { image_size := 4, blur_radius := 0, faces_per_pixel := 1,
        perspective_correct := true, cull_backfaces := true },
    flame_mask := none }

/-- A trivial external Phong pipeline for `Texture_Renderer` witnesses. -/
def texPhongNil : PerspectiveCameras → TexRasterizationSettings → MeshesUV →
    List (List RGBA) := fun _ _ _ => []

/-- A trivial external silhouette pipeline for `Texture_Renderer` witnesses. -/
def texSilNil : PerspectiveCameras → TexRasterizationSettings → Meshes →
    List (List RGBA) := fun _ _ _ => []

/-- A concrete one-element batch of 30 points for the subsampling witness. -/
def pts1 : List (List Point3) :=
  [(List.range 30).map (fun (i : Nat) => ((i : Rat), (0 : Rat), (0 : Rat)))]

/-- A call to `Mesh_Renderer.forward` made while the ambient torch RNG stream
holds `rng`.  The body of `Mesh_Renderer.forward` performs no random draw
(unlike `Point_Renderer.forward`'s `torch.rand_like`), so the stream is never
consumed: the call is `forward` itself, independent of `rng`. -/
def Mesh_Renderer.callWithRng (_rng : List (List Point3))
    (render : PerspectiveCameras → RasterizationSettings → PointLights →
      Meshes → List (List RGBA))
    (self : Mesh_Renderer) (vertices : List (List Point3))
    (cameras : Option PerspectiveCameras)
    (transform_matrix : List (List (List Rat)))
    (focal_length : List (List Rat)) (principal_point : List Rat) :
    Mesh_Renderer × List (List Point3) × List (List Rat) :=
  Mesh_Renderer.forward render self vertices cameras transform_matrix
    focal_length principal_point

/-! ## Helper lemmas (shared) -/

/-- Projecting the post-state of `Point_Renderer.forward`: exactly the
camera-update prefix applied to `self`. -/
theorem Point_Renderer.forward_fst
    (render : FoVPerspectiveCameras → List (List Point3) →
      List (List Point3) → List Rat)
    (self : Point_Renderer) (points : List (List Point3))
    (D E A : Rat) (coords : Bool) (ex_points : Option (List Point3))
    (perm : List Nat) (rng : List (List Point3)) :
    (Point_Renderer.forward render self points D E A coords ex_points perm rng).1 =
      self.updateCameras D E A := rfl

/-- Projecting the image of `Point_Renderer.forward`: the external renderer
applied to the post-update cameras and the assembled cloud, scaled by 255. -/
theorem Point_Renderer.forward_snd
    (render : FoVPerspectiveCameras → List (List Point3) →
      List (List Point3) → List Rat)
    (self : Point_Renderer) (points : List (List Point3))
    (D E A : Rat) (coords : Bool) (ex_points : Option (List Point3))
    (perm : List Nat) (rng : List (List Point3)) :
    (Point_Renderer.forward render self points D E A coords ex_points perm rng).2 =
      (render (self.updateCameras D E A).cameras
        (Point_Renderer.buildVerts points perm coords ex_points) rng).map
        (fun x => x * 255) := rfl

/-- `idx.filterMap (row.get? ·)` keeps every entry when all indices are in
range. -/
theorem length_filterMap_get {α : Type} (row : List α) :
    ∀ idx : List Nat, (∀ j ∈ idx, j < row.length) →
      (idx.filterMap (fun i => row.get? i)).length = idx.length := by
  intro idx
  induction idx with
  | nil => intro _; rfl
  | cons j idx ih =>
      intro h
      have hj : j < row.length := h j (List.mem_cons_self _ _)
      have ih' := ih (fun k hk => h k (List.mem_cons_of_mem _ hk))
      rw [List.filterMap_cons, List.get?_eq_get hj]
      simp only [List.length_cons, ih']

/-! ## Claim theorems -/

/-- C1: `Point_Renderer.forward` rebuilds its camera iff the supplied
`(D, E, A)` view tuple differs from the fixed sentinel `(8, 30, 30)`: at the
sentinel the previously constructed state (camera included) is reused
unchanged, and at every other tuple the camera is replaced by a fresh
`FoVPerspectiveCameras` built from `look_at_view_transform D E A` with
`znear = 0.01`, `zfar = 1.0`. -/
theorem point_camera_rebuilt_iff_not_sentinel
    (render : FoVPerspectiveCameras → List (List Point3) →
      List (List Point3) → List Rat)
    (self : Point_Renderer) (points : List (List Point3))
    (D E A : Rat) (coords : Bool) (ex_points : Option (List Point3))
    (perm : List Nat) (rng : List (List Point3)) :
    ((D = 8 ∧ E = 30 ∧ A = 30) →
      (Point_Renderer.forward render self points D E A coords ex_points perm rng).1 =
        self) ∧
    (¬(D = 8 ∧ E = 30 ∧ A = 30) →
      (Point_Renderer.forward render self points D E A coords ex_points perm rng).1.cameras =
        { device := self.device, view := look_at_view_transform D E A,
          znear := 1/100, zfar := 1 }) := by
  rw [Point_Renderer.forward_fst]
  constructor
  · rintro ⟨hD, hE, hA⟩
    subst hD; subst hE; subst hA
    simp [Point_Renderer.updateCameras]
  · intro h
    have hc : D ≠ 8 ∨ E ≠ 30 ∨ A ≠ 30 := by tauto
    simp [Point_Renderer.updateCameras, hc]

/-- C1 witness: at the sentinel `(8,30,30)` the state is reused, at
`(3,15,30)` the camera is rebuilt from `look_at_view_transform 3 15 30`. -/
theorem point_camera_rebuilt_iff_not_sentinel_witness :
    (Point_Renderer.forward pointRenderNil (Point_Renderer.init 256 "cpu")
        [] 8 30 30 true none [] []).1 = Point_Renderer.init 256 "cpu" ∧
    (Point_Renderer.forward pointRenderNil (Point_Renderer.init 256 "cpu")
        [] 3 15 30 true none [] []).1.cameras =
      { device := "cpu", view := look_at_view_transform 3 15 30,
        znear := 1/100, zfar := 1 } :=
  ⟨(point_camera_rebuilt_iff_not_sentinel pointRenderNil
      (Point_Renderer.init 256 "cpu") [] 8 30 30 true none [] []).1
      ⟨rfl, rfl, rfl⟩,
   (point_camera_rebuilt_iff_not_sentinel pointRenderNil
      (Point_Renderer.init 256 "cpu") [] 3 15 30 true none [] []).2
      (by norm_num)⟩

/-- C10: `Point_Renderer.forward`'s default view arguments are
`D=3, E=15, A=30`, which differ from the sentinel `(8,30,30)`; hence a call
with default view arguments always rebuilds the camera from
`look_at_view_transform 3 15 30`, the constructor's camera is
`look_at_view_transform 4 30 30` and differs from the rebuilt one, and the
image of such a call is rendered with the rebuilt camera, never the
constructor's. -/
theorem point_default_args_always_rebuild
    (render : FoVPerspectiveCameras → List (List Point3) →
      List (List Point3) → List Rat)
    (self : Point_Renderer) (points : List (List Point3))
    (coords : Bool) (ex_points : Option (List Point3))
    (perm : List Nat) (rng : List (List Point3))
    (image_size : Nat) (device : String) :
    -- `3, 15, 30` below are forward's declared default arguments.
    (Point_Renderer.forward render self points 3 15 30 coords ex_points perm rng).1.cameras =
      { device := self.device, view := look_at_view_transform 3 15 30,
        znear := 1/100, zfar := 1 } ∧
    (Point_Renderer.init image_size device).cameras =
      { device, view := look_at_view_transform 4 30 30,
        znear := 1/100, zfar := 1 } ∧
    ({ device, view := look_at_view_transform 3 15 30, znear := 1/100,
       zfar := 1 } : FoVPerspectiveCameras) ≠
      (Point_Renderer.init image_size device).cameras ∧
    (Point_Renderer.forward render self points 3 15 30 coords ex_points perm rng).2 =
      (render { device := self.device, view := look_at_view_transform 3 15 30,
                znear := 1/100, zfar := 1 }
        (Point_Renderer.buildVerts points perm coords ex_points) rng).map
        (fun x => x * 255) := by
  have hcam :
      (self.updateCameras 3 15 30).cameras =
        { device := self.device, view := look_at_view_transform 3 15 30,
          znear := 1/100, zfar := 1 } := by
    simp [Point_Renderer.updateCameras]
  refine ⟨?_, rfl, ?_, ?_⟩
  · rw [Point_Renderer.forward_fst]; exact hcam
  · intro h
    have : look_at_view_transform 3 15 30 = look_at_view_transform 4 30 30 := by
      have := congrArg FoVPerspectiveCameras.view h
      simpa [Point_Renderer.init] using this
    simp [look_at_view_transform, ViewTransform.mk.injEq] at this
  · rw [Point_Renderer.forward_snd, hcam]

/-- C7: `Mesh_Renderer.__init__` fails (raises) iff neither an obj filename
nor a raw face array is supplied; when the filename is supplied the loaded
`verts_idx` is stored, when only the raw array is supplied it is stored, and
every error outcome comes from the neither-supplied call. -/
theorem mesh_init_error_iff_no_faces
    (load_obj : String → List Face) (image_size : Nat) (device : String) :
    Mesh_Renderer.init load_obj image_size none none device =
      .error "Must have faces." ∧
    (∀ (fn : String) (fcs : Option (List Face)),
      Mesh_Renderer.init load_obj image_size (some fn) fcs device =
        .ok { device, image_size, faces := load_obj fn,
              raster_settings :=
                { image_size, blur_radius := 0, faces_per_pixel := 1 },
              lights := { device, location := [[0, 0, 3]] } }) ∧
    (∀ fs : List Face,
      Mesh_Renderer.init load_obj image_size none (some fs) device =
        .ok { device, image_size, faces := fs,
              raster_settings :=
                { image_size, blur_radius := 0, faces_per_pixel := 1 },
              lights := { device, location := [[0, 0, 3]] } }) ∧
    (∀ (obj_filename : Option String) (fcs : Option (List Face)) (msg : String),
      Mesh_Renderer.init load_obj image_size obj_filename fcs device =
        .error msg →
      obj_filename = none ∧ fcs = none) := by
  refine ⟨rfl, fun fn fcs => rfl, fun fs => rfl, ?_⟩
  intro obj_filename fcs msg h
  cases obj_filename with
  | some fn => simp [Mesh_Renderer.init] at h
  | none =>
      cases fcs with
      | some fs => simp [Mesh_Renderer.init] at h
      | none => exact ⟨rfl, rfl⟩

/-- C7 witness: with neither input the constructor errors; with a raw face
array it succeeds. -/
theorem mesh_init_error_iff_no_faces_witness :
    Mesh_Renderer.init (fun _ => []) 4 none none "cpu" =
      .error "Must have faces." ∧
    Mesh_Renderer.init (fun _ => []) 4 none (some [(0, 1, 2)]) "cpu" =
      .ok meshR0 :=
  ⟨(mesh_init_error_iff_no_faces (fun _ => []) 4 "cpu").1,
   (mesh_init_error_iff_no_faces (fun _ => []) 4 "cpu").2.2.1 [(0, 1, 2)]⟩

/-- C8: `Texture_Renderer.forward`'s third output (`masks_face`) is `none`
iff no region mask was configured at construction (no `flame_mask`
attribute); the call itself always succeeds, so absence is signalled by
`none`, never by an error. -/
theorem texture_masks_face_none_iff_no_mask
    (render_phong : PerspectiveCameras → TexRasterizationSettings →
      MeshesUV → List (List RGBA))
    (render_sil : PerspectiveCameras → TexRasterizationSettings →
      Meshes → List (List RGBA))
    (self : Texture_Renderer) (vertices_world : List (List Point3))
    (texture_images : List Point3) (cameras : PerspectiveCameras) :
    (Texture_Renderer.forward render_phong render_sil self vertices_world
        texture_images cameras).2.2.2 = none ↔
      self.flame_mask = none := by
  cases h : self.flame_mask with
  | none => simp [Texture_Renderer.forward, h]
  | some fm => simp [Texture_Renderer.forward, h]

/-- C2 counterexample: a `Point_Renderer.forward` call with the default view
arguments `(3, 15, 30)` modifies the construction-time `cameras` field, so it
is false that no construction-time field is modified by any forward call. -/
theorem point_forward_mutates_cameras_counterexample :
    (Point_Renderer.forward pointRenderNil (Point_Renderer.init 256 "cpu")
        [] 3 15 30 true none [] []).1.cameras ≠
      (Point_Renderer.init 256 "cpu").cameras := by
  rw [Point_Renderer.forward_fst]
  intro h
  have := congrArg FoVPerspectiveCameras.view h
  simp [Point_Renderer.updateCameras, Point_Renderer.init,
    look_at_view_transform] at this

/-- C2 amended: `Mesh_Renderer.forward` and `Texture_Renderer.forward` modify
no construction-time field; `Point_Renderer.forward` preserves every
construction-time field except possibly `cameras`, and preserves `cameras`
too exactly when the supplied view tuple equals the sentinel `(8, 30, 30)`
(otherwise `cameras` is replaced). -/
theorem construction_fields_preserved_except_point_cameras
    (renderM : PerspectiveCameras → RasterizationSettings → PointLights →
      Meshes → List (List RGBA))
    (selfM : Mesh_Renderer) (vertices : List (List Point3))
    (camerasM : Option PerspectiveCameras)
    (transform_matrix : List (List (List Rat)))
    (focal_length : List (List Rat)) (principal_point : List Rat)
    (render_phong : PerspectiveCameras → TexRasterizationSettings →
      MeshesUV → List (List RGBA))
    (render_sil : PerspectiveCameras → TexRasterizationSettings →
      Meshes → List (List RGBA))
    (selfT : Texture_Renderer) (vertices_world : List (List Point3))
    (texture_images : List Point3) (camerasT : PerspectiveCameras)
    (render : FoVPerspectiveCameras → List (List Point3) →
      List (List Point3) → List Rat)
    (selfP : Point_Renderer) (points : List (List Point3))
    (D E A : Rat) (coords : Bool) (ex_points : Option (List Point3))
    (perm : List Nat) (rng : List (List Point3)) :
    (Mesh_Renderer.forward renderM selfM vertices camerasM transform_matrix
        focal_length principal_point).1 = selfM ∧
    (Texture_Renderer.forward render_phong render_sil selfT vertices_world
        texture_images camerasT).1 = selfT ∧
    (Point_Renderer.forward render selfP points D E A coords ex_points
        perm rng).1.device = selfP.device ∧
    (Point_Renderer.forward render selfP points D E A coords ex_points
        perm rng).1.image_size = selfP.image_size ∧
    ((D = 8 ∧ E = 30 ∧ A = 30) →
      (Point_Renderer.forward render selfP points D E A coords ex_points
          perm rng).1 = selfP) := by
  refine ⟨rfl, rfl, ?_, ?_, ?_⟩
  · rw [Point_Renderer.forward_fst]
    unfold Point_Renderer.updateCameras
    split <;> rfl
  · rw [Point_Renderer.forward_fst]
    unfold Point_Renderer.updateCameras
    split <;> rfl
  · rintro ⟨hD, hE, hA⟩
    subst hD; subst hE; subst hA
    rw [Point_Renderer.forward_fst]
    simp [Point_Renderer.updateCameras]

/-- C2 amended witness: concrete instances — the mesh state is unchanged, the
point state's `device`/`image_size` survive a default-view call, and a call
at the sentinel `(8, 30, 30)` leaves the whole point state unchanged. -/
theorem construction_fields_preserved_witness :
    (Mesh_Renderer.forward (meshRenderConst ⟨0, 0, 0, 1⟩) meshR0 [[(0, 0, 0)]]
        (some camera0) [] [] []).1 = meshR0 ∧
    (Point_Renderer.forward pointRenderNil (Point_Renderer.init 256 "cpu")
        [] 3 15 30 true none [] []).1.device = "cpu" ∧
    (Point_Renderer.forward pointRenderNil (Point_Renderer.init 256 "cpu")
        [] 8 30 30 true none [] []).1 = Point_Renderer.init 256 "cpu" := by
  have h := construction_fields_preserved_except_point_cameras
    (meshRenderConst ⟨0, 0, 0, 1⟩) meshR0 [[(0, 0, 0)]] (some camera0) [] [] []
    texPhongNil texSilNil texR0 [] [] camera0
    pointRenderNil (Point_Renderer.init 256 "cpu") [] 3 15 30 true none [] []
  have h8 := construction_fields_preserved_except_point_cameras
    (meshRenderConst ⟨0, 0, 0, 1⟩) meshR0 [[(0, 0, 0)]] (some camera0) [] [] []
    texPhongNil texSilNil texR0 [] [] camera0
    pointRenderNil (Point_Renderer.init 256 "cpu") [] 8 30 30 true none [] []
  exact ⟨h.1, h.2.2.1, h8.2.2.2.2 ⟨rfl, rfl, rfl⟩⟩

/-- C3 counterexample: `Mesh_Renderer.forward` returns the external
renderer's alpha channel unthresholded, so for a rasterizer producing a
fractional alpha the returned mask element `1/2` is neither 0 nor 1. -/
theorem mesh_alpha_not_boolean_counterexample :
    (Mesh_Renderer.forward (meshRenderConst ⟨0, 0, 0, 1/2⟩) meshR0
        [[(0, 0, 0)]] (some camera0) [] [] []).2.2 = [[(1/2 : Rat)]] ∧
    ¬((1/2 : Rat) = 0 ∨ (1/2 : Rat) = 1) := by
  refine ⟨rfl, ?_⟩
  norm_num

/-- C3 amended: `Texture_Renderer`'s second and third outputs are strictly
boolean-valued (they are `> 0.0` thresholds of the alpha channel), while
`Mesh_Renderer`'s second output is the raw alpha channel, so it is
{0,1}-valued exactly on those calls where the external rasterizer's alpha
channel is — the wrapper itself does not booleanize it. -/
theorem masks_boolean_only_where_thresholded
    (render_phong : PerspectiveCameras → TexRasterizationSettings →
      MeshesUV → List (List RGBA))
    (render_sil : PerspectiveCameras → TexRasterizationSettings →
      Meshes → List (List RGBA))
    (selfT : Texture_Renderer) (vertices_world : List (List Point3))
    (texture_images : List Point3) (camerasT : PerspectiveCameras)
    (renderM : PerspectiveCameras → RasterizationSettings → PointLights →
      Meshes → List (List RGBA))
    (selfM : Mesh_Renderer) (vertices : List (List Point3))
    (camerasM : Option PerspectiveCameras)
    (transform_matrix : List (List (List Rat)))
    (focal_length : List (List Rat)) (principal_point : List Rat) :
    (∀ row ∈ (Texture_Renderer.forward render_phong render_sil selfT
        vertices_world texture_images camerasT).2.2.1,
      ∀ b ∈ row, b = true ∨ b = false) ∧
    (∀ mf, (Texture_Renderer.forward render_phong render_sil selfT
        vertices_world texture_images camerasT).2.2.2 = some mf →
      ∀ row ∈ mf, ∀ b ∈ row, b = true ∨ b = false) ∧
    ((∀ cams rs l m, ∀ px ∈ renderM cams rs l m, ∀ p ∈ px,
        p.a = 0 ∨ p.a = 1) →
      ∀ row ∈ (Mesh_Renderer.forward renderM selfM vertices camerasM
          transform_matrix focal_length principal_point).2.2,
        ∀ a ∈ row, a = 0 ∨ a = 1) := by
  refine ⟨?_, ?_, ?_⟩
  · intro row _ b _
    cases b with
    | false => exact Or.inr rfl
    | true => exact Or.inl rfl
  · intro mf _ row _ b _
    cases b with
    | false => exact Or.inr rfl
    | true => exact Or.inl rfl
  · intro h row hrow a ha
    simp only [Mesh_Renderer.forward, List.mem_map] at hrow
    obtain ⟨px, hpx, rfl⟩ := hrow
    simp only [List.mem_map] at ha
    obtain ⟨p, hp, rfl⟩ := ha
    exact h _ _ _ _ px hpx p hp

/-- C3 amended witness: for a rasterizer with binary alpha the returned mesh
alpha element is 0 or 1. -/
theorem masks_boolean_only_where_thresholded_witness :
    (Mesh_Renderer.forward (meshRenderConst ⟨0, 0, 0, 1⟩) meshR0
        [[(0, 0, 0)]] (some camera0) [] [] []).2.2 = [[(1 : Rat)]] ∧
    ((1 : Rat) = 0 ∨ (1 : Rat) = 1) := by
  refine ⟨rfl, ?_⟩
  have h := (masks_boolean_only_where_thresholded
    texPhongNil texSilNil texR0 [] [] camera0
    (meshRenderConst ⟨0, 0, 0, 1⟩) meshR0 [[(0, 0, 0)]] (some camera0)
    [] [] []).2.2
  have halpha : ∀ cams rs l m,
      ∀ px ∈ meshRenderConst ⟨0, 0, 0, 1⟩ cams rs l m, ∀ p ∈ px,
        p.a = 0 ∨ p.a = 1 := by
    intro cams rs l m px hpx p hp
    simp [meshRenderConst] at hpx
    subst hpx
    simp at hp
    subst hp
    exact Or.inr rfl
  have hrow : [(1 : Rat)] ∈ (Mesh_Renderer.forward (meshRenderConst ⟨0, 0, 0, 1⟩)
      meshR0 [[(0, 0, 0)]] (some camera0) [] [] []).2.2 := by
    have e : (Mesh_Renderer.forward (meshRenderConst ⟨0, 0, 0, 1⟩) meshR0
        [[(0, 0, 0)]] (some camera0) [] [] []).2.2 = [[(1 : Rat)]] := rfl
    rw [e]
    simp
  exact h halpha [(1 : Rat)] hrow 1 (by simp)

/-- C9 counterexample: the wrapper multiplies the external renderer's raw
values by 255 without clamping, so a raw value of 2 yields an RGB element
510 ∉ [0, 255]. -/
theorem point_rgb_out_of_range_counterexample :
    (Point_Renderer.forward (pointRenderConst 2) (Point_Renderer.init 256 "cpu")
        [] 3 15 30 true none [] []).2 = [(510 : Rat)] ∧
    ¬((510 : Rat) ≤ 255) := by
  refine ⟨?_, by norm_num⟩
  rw [Point_Renderer.forward_snd]
  simp [pointRenderConst]
  norm_num

/-- C9 amended: every element of the ×255-scaled RGB outputs of
`Mesh_Renderer.forward` and `Point_Renderer.forward` lies in [0, 255]
whenever the external renderer's raw values lie in [0, 1]; the wrapper
applies only the ×255 scaling and no clamping, so the bound is inherited
from, not enforced on, the rasterizer output. -/
theorem rgb_in_range_iff_raw_unit_interval
    (render : FoVPerspectiveCameras → List (List Point3) →
      List (List Point3) → List Rat)
    (selfP : Point_Renderer) (points : List (List Point3))
    (D E A : Rat) (coords : Bool) (ex_points : Option (List Point3))
    (perm : List Nat) (rng : List (List Point3))
    (renderM : PerspectiveCameras → RasterizationSettings → PointLights →
      Meshes → List (List RGBA))
    (selfM : Mesh_Renderer) (vertices : List (List Point3))
    (camerasM : Option PerspectiveCameras)
    (transform_matrix : List (List (List Rat)))
    (focal_length : List (List Rat)) (principal_point : List Rat) :
    ((∀ c vs fs, ∀ x ∈ render c vs fs, 0 ≤ x ∧ x ≤ 1) →
      ∀ y ∈ (Point_Renderer.forward render selfP points D E A coords
          ex_points perm rng).2, 0 ≤ y ∧ y ≤ 255) ∧
    ((∀ cams rs l m, ∀ px ∈ renderM cams rs l m, ∀ p ∈ px,
        (0 ≤ p.r ∧ p.r ≤ 1) ∧ (0 ≤ p.g ∧ p.g ≤ 1) ∧ (0 ≤ p.b ∧ p.b ≤ 1)) →
      ∀ row ∈ (Mesh_Renderer.forward renderM selfM vertices camerasM
          transform_matrix focal_length principal_point).2.1,
        ∀ t ∈ row, (0 ≤ t.1 ∧ t.1 ≤ 255) ∧ (0 ≤ t.2.1 ∧ t.2.1 ≤ 255) ∧
          (0 ≤ t.2.2 ∧ t.2.2 ≤ 255)) := by
  have hscale : ∀ x : Rat, 0 ≤ x → x ≤ 1 → 0 ≤ x * 255 ∧ x * 255 ≤ 255 := by
    intro x h0 h1
    constructor
    · positivity
    · nlinarith
  constructor
  · intro h y hy
    rw [Point_Renderer.forward_snd] at hy
    simp only [List.mem_map] at hy
    obtain ⟨x, hx, rfl⟩ := hy
    obtain ⟨h0, h1⟩ := h _ _ _ x hx
    exact hscale x h0 h1
  · intro h row hrow t ht
    simp only [Mesh_Renderer.forward, List.mem_map] at hrow
    obtain ⟨px0, ⟨px, hpx, rfl⟩, rfl⟩ := hrow
    simp only [List.mem_map] at ht
    obtain ⟨c, ⟨p, hp, rfl⟩, rfl⟩ := ht
    obtain ⟨hr, hg, hb⟩ := h _ _ _ _ px hpx p hp
    exact ⟨hscale _ hr.1 hr.2, hscale _ hg.1 hg.2, hscale _ hb.1 hb.2⟩

/-- C9 amended witness: with a raw renderer value 1/2 the scaled point RGB
element 127.5 lies in [0, 255]. -/
theorem rgb_in_range_iff_raw_unit_interval_witness :
    (0 : Rat) ≤ 255/2 ∧ (255/2 : Rat) ≤ 255 := by
  have h := (rgb_in_range_iff_raw_unit_interval (pointRenderConst (1/2))
    (Point_Renderer.init 256 "cpu") [] 3 15 30 true none [] []
    (meshRenderConst ⟨0, 0, 0, 1⟩) meshR0 [[(0, 0, 0)]] (some camera0)
    [] [] []).1
  have hy := h (by intro c vs fs x hx
                   simp [pointRenderConst] at hx
                   subst hx
                   norm_num)
    (255/2) (by rw [Point_Renderer.forward_snd]; simp [pointRenderConst]; norm_num)
  simpa using hy

/-- C5: `Mesh_Renderer.forward` is deterministic — it never consumes the
per-call RNG stream, so two calls with identical vertices, faces and camera
inputs (under any RNG states) return identical image and mask outputs —
whereas `Point_Renderer.forward`'s RGB output depends on the per-call random
colour draw: two calls with identical point input and different draws can
return different images. -/
theorem mesh_deterministic_point_rgb_randomized :
    (∀ (rng1 rng2 : List (List Point3))
       (render : PerspectiveCameras → RasterizationSettings → PointLights →
         Meshes → List (List RGBA))
       (self : Mesh_Renderer) (vertices : List (List Point3))
       (cameras : Option PerspectiveCameras)
       (transform_matrix : List (List (List Rat)))
       (focal_length : List (List Rat)) (principal_point : List Rat),
      Mesh_Renderer.callWithRng rng1 render self vertices cameras
          transform_matrix focal_length principal_point =
        Mesh_Renderer.callWithRng rng2 render self vertices cameras
          transform_matrix focal_length principal_point) ∧
    (∃ (render : FoVPerspectiveCameras → List (List Point3) →
         List (List Point3) → List Rat)
       (self : Point_Renderer) (points : List (List Point3))
       (perm : List Nat) (rng1 rng2 : List (List Point3)),
      (Point_Renderer.forward render self points 3 15 30 true none
          perm rng1).2 ≠
        (Point_Renderer.forward render self points 3 15 30 true none
            perm rng2).2) := by
  constructor
  · intro rng1 rng2 render self vertices cameras tm fl pp
    rfl
  · refine ⟨fun _ _ rgb => (rgb.headD []).map (fun p => p.1),
      Point_Renderer.init 256 "cpu", [], [], [[(0, 0, 0)]], [[(1, 0, 0)]], ?_⟩
    rw [Point_Renderer.forward_snd, Point_Renderer.forward_snd]
    norm_num

/-- C5 witness: two concrete mesh calls under different RNG streams agree. -/
theorem mesh_deterministic_point_rgb_randomized_witness :
    Mesh_Renderer.callWithRng [[(0, 0, 0)]] (meshRenderConst ⟨0, 0, 0, 1⟩)
        meshR0 [[(0, 0, 0)]] (some camera0) [] [] [] =
      Mesh_Renderer.callWithRng [[(1, 1, 1)]] (meshRenderConst ⟨0, 0, 0, 1⟩)
        meshR0 [[(0, 0, 0)]] (some camera0) [] [] [] :=
  mesh_deterministic_point_rgb_randomized.1 [[(0, 0, 0)]] [[(1, 1, 1)]]
    (meshRenderConst ⟨0, 0, 0, 1⟩) meshR0 [[(0, 0, 0)]] (some camera0) [] [] []

/-- C8 witness: a concrete maskless `Texture_Renderer` call yields `none` as
its third output. -/
theorem texture_masks_face_none_iff_no_mask_witness :
    (Texture_Renderer.forward texPhongNil texSilNil texR0 [] []
        camera0).2.2.2 = none :=
  (texture_masks_face_none_iff_no_mask texPhongNil texSilNil texR0 [] []
    camera0).mpr rfl

/-- C10 witness: a concrete default-view call on a fresh instance ends with
the rebuilt `look_at_view_transform 3 15 30` camera. -/
theorem point_default_args_always_rebuild_witness :
    (Point_Renderer.forward pointRenderNil (Point_Renderer.init 256 "cpu")
        [] 3 15 30 true none [] []).1.cameras =
      { device := "cpu", view := look_at_view_transform 3 15 30,
        znear := 1/100, zfar := 1 } :=
  (point_default_args_always_rebuild pointRenderNil
    (Point_Renderer.init 256 "cpu") [] true none [] [] 256 "cpu").1

/-- The 3-of-3 membership count of the `Texture_Renderer.__init__` loop hits
3 exactly when all three vertex indices are in the mask set. -/
theorem countValid_eq_three_iff (f : Face) (mask : List Nat) :
    Texture_Renderer.countValid f mask = 3 ↔
      f.1 ∈ mask ∧ f.2.1 ∈ mask ∧ f.2.2 ∈ mask := by
  unfold Texture_Renderer.countValid
  by_cases h1 : f.1 ∈ mask <;> by_cases h2 : f.2.1 ∈ mask <;>
    by_cases h3 : f.2.2 ∈ mask <;> simp [h1, h2, h3]

/-- C6: when a vertex-index mask set is supplied to
`Texture_Renderer.__init__`, the stored per-face mask has one entry per face,
entry `i` is `true` iff all three vertex indices of face `i` are members of
the set, and no `forward` call ever changes the stored mask. -/
theorem texture_face_mask_all_three_vertices
    (load_obj : String → ObjData) (image_size : Nat) (flame_path : String)
    (mask : List Nat) (device : String) :
    ((Texture_Renderer.init load_obj image_size flame_path (some mask)
        device).flame_mask.getD []).length =
      (load_obj flame_path).verts_idx.length ∧
    (∀ i f, (load_obj flame_path).verts_idx.get? i = some f →
      ((Texture_Renderer.init load_obj image_size flame_path (some mask)
          device).flame_mask.getD []).get? i =
        some (decide (f.1 ∈ mask ∧ f.2.1 ∈ mask ∧ f.2.2 ∈ mask))) ∧
    (∀ render_phong render_sil vertices_world texture_images cameras,
      (Texture_Renderer.forward render_phong render_sil
          (Texture_Renderer.init load_obj image_size flame_path (some mask)
            device) vertices_world texture_images cameras).1.flame_mask =
        (Texture_Renderer.init load_obj image_size flame_path (some mask)
          device).flame_mask) := by
  refine ⟨?_, ?_, ?_⟩
  · simp [Texture_Renderer.init, Texture_Renderer.reducedFaces]
  · intro i f hf
    simp only [Texture_Renderer.init, Texture_Renderer.reducedFaces,
      Option.map_some, Option.getD_some, List.get?_map, hf, Option.map]
    congr 1
    rw [Bool.decide_congr (countValid_eq_three_iff f mask)]
  · intro render_phong render_sil vertices_world texture_images cameras
    rfl

/-- C6 witness: with faces `[(0,1,2), (0,1,5)]` and mask set `{0,1,2}` the
stored per-face mask marks the first face and rejects the second. -/
theorem texture_face_mask_all_three_vertices_witness :
    ((Texture_Renderer.init objLoader0 4 "flame" (some [0, 1, 2])
        "cpu").flame_mask.getD []).get? 0 = some true ∧
    ((Texture_Renderer.init objLoader0 4 "flame" (some [0, 1, 2])
        "cpu").flame_mask.getD []).get? 1 = some false := by
  have h := texture_face_mask_all_three_vertices objLoader0 4 "flame"
    [0, 1, 2] "cpu"
  have h0 := h.2.1 0 (0, 1, 2) rfl
  have h1 := h.2.1 1 (0, 1, 5) rfl
  constructor
  · rw [h0]; simp
  · rw [h1]; simp

/-- `torch.linspace(0, 1, steps=c)` has exactly `c` entries. -/
theorem linspace01_length (c : Nat) : (linspace01 c).length = c := by
  unfold linspace01
  split <;> simp_all

/-- The `cod` axis tensor has `3 * c` rows (three axes of `c` points each). -/
theorem coordPoints_length (c : Nat) : (coordPoints c).length = 3 * c := by
  unfold coordPoints
  rw [List.length_append, List.length_append, List.length_map,
    List.length_map, List.length_map, linspace01_length]
  omega

/-- The linspace entries are evenly spaced on [0, 1]: entry `j` is
`j / (c - 1)`. -/
theorem linspace01_get (c j : Nat) (hc : 2 ≤ c) (hj : j < c) :
    (linspace01 c).get? j = some ((j : Rat) / ((c : Rat) - 1)) := by
  unfold linspace01
  rw [if_neg (by omega), List.get?_map, List.get?_range hj]
  rfl

/-- `get?` on the column gather: gather the same indices from row `n`. -/
theorem gatherCols_get? {α : Type} (rows : List (List α)) (idx : List Nat)
    (n : Nat) :
    (gatherCols rows idx).get? n =
      (rows.get? n).map (fun row => idx.filterMap (fun i => row.get? i)) :=
  List.get?_map _ _ _

/-- Pointwise characterization of the assembled cloud: batch element `n` is
the shared subsample of row `n` (indices `perm.take 10000`, independent of
`n`), then the extra points, then the axis points for
`coords_size = (min 10000 N + |ex|) / 10`. -/
theorem Point_Renderer.buildVerts_get
    (points : List (List Point3)) (N : Nat) (perm : List Nat)
    (coords : Bool) (ex_points : Option (List Point3))
    (hrows : ∀ r ∈ points, r.length = N) (hlen : perm.length = N)
    (hmem : ∀ j ∈ perm, j < N) (n : Nat) :
    (Point_Renderer.buildVerts points perm coords ex_points).get? n =
      (points.get? n).map (fun ri =>
        ((perm.take 10000).filterMap (fun j => ri.get? j)) ++
        ex_points.getD [] ++
        (if coords then
          coordPoints ((min 10000 N + (ex_points.getD []).length) / 10)
        else [])) := by
  have hvalid : ∀ r ∈ points, ∀ j ∈ perm.take 10000, j < r.length := by
    intro r hr j hj
    rw [hrows r hr]
    exact hmem j ((List.take_sublist _ _).subset hj)
  have hslen : ∀ r ∈ points,
      ((perm.take 10000).filterMap (fun j => r.get? j)).length =
        min 10000 N := by
    intro r hr
    rw [length_filterMap_get r _ (hvalid r hr), List.length_take, hlen]
  cases points with
  | nil =>
      cases ex_points <;> cases coords <;>
        simp [Point_Renderer.buildVerts, gatherCols]
  | cons r0 tl =>
      have hshape0 :
          ((perm.take 10000).filterMap (fun j => r0.get? j)).length =
            min 10000 N := hslen r0 (List.mem_cons_self _ _)
      cases ex_points with
      | none =>
          cases coords with
          | false =>
              rw [show Point_Renderer.buildVerts (r0 :: tl) perm false none =
                    gatherCols (r0 :: tl) (perm.take 10000) from rfl,
                  gatherCols_get?]
              cases (r0 :: tl).get? n <;> simp
          | true =>
              have hs : shape1 (gatherCols (r0 :: tl) (perm.take 10000)) =
                  min 10000 N := hshape0
              rw [show Point_Renderer.buildVerts (r0 :: tl) perm true none =
                    (gatherCols (r0 :: tl) (perm.take 10000)).map
                      (fun row => row ++ coordPoints
                        (shape1 (gatherCols (r0 :: tl) (perm.take 10000)) / 10))
                    from rfl,
                  List.get?_map, gatherCols_get?]
              simp only [hs]
              cases (r0 :: tl).get? n <;> simp
      | some ex =>
          cases coords with
          | false =>
              rw [show Point_Renderer.buildVerts (r0 :: tl) perm false
                      (some ex) =
                    (gatherCols (r0 :: tl) (perm.take 10000)).map
                      (fun row => row ++ ex) from rfl,
                  List.get?_map, gatherCols_get?]
              cases (r0 :: tl).get? n <;> simp
          | true =>
              have hs : shape1 ((gatherCols (r0 :: tl)
                  (perm.take 10000)).map (fun row => row ++ ex)) =
                  min 10000 N + ex.length := by
                show (((perm.take 10000).filterMap (fun j => r0.get? j)) ++
                    ex).length = min 10000 N + ex.length
                rw [List.length_append, hshape0]
              rw [show Point_Renderer.buildVerts (r0 :: tl) perm true
                      (some ex) =
                    ((gatherCols (r0 :: tl) (perm.take 10000)).map
                      (fun row => row ++ ex)).map
                      (fun row => row ++ coordPoints
                        (shape1 ((gatherCols (r0 :: tl)
                          (perm.take 10000)).map (fun row => row ++ ex)) / 10))
                    from rfl,
                  List.get?_map, List.get?_map, gatherCols_get?]
              simp only [hs]
              cases (r0 :: tl).get? n <;> simp

/-- C4: for a batch of equal-size point rows and a random permutation of the
row indices, every batch element of the assembled cloud holds
`min 10000 N` subsampled points, plus the extra points when supplied, plus
`3 * ((min 10000 N + |ex|) / 10)` axis points when `coords` is on; one common
index list (valid, duplicate-free, of length `min 10000 N`) is used for every
batch element; and the axis points of each axis are evenly spaced on [0, 1]. -/
theorem point_cloud_subsample_and_axes
    (points : List (List Point3)) (N : Nat) (perm : List Nat)
    (coords : Bool) (ex_points : Option (List Point3))
    (hrows : ∀ r ∈ points, r.length = N)
    (hperm : perm.Perm (List.range N)) :
    (∀ row ∈ Point_Renderer.buildVerts points perm coords ex_points,
      row.length =
        if coords then
          min 10000 N + (ex_points.getD []).length +
            3 * ((min 10000 N + (ex_points.getD []).length) / 10)
        else min 10000 N + (ex_points.getD []).length) ∧
    (∃ idx : List Nat, idx.length = min 10000 N ∧ idx.Nodup ∧
      (∀ j ∈ idx, j < N) ∧
      ∀ i ri, points.get? i = some ri →
        (Point_Renderer.buildVerts points perm coords ex_points).get? i =
          some ((idx.filterMap (fun j => ri.get? j)) ++ ex_points.getD [] ++
            (if coords then
              coordPoints ((min 10000 N + (ex_points.getD []).length) / 10)
            else []))) ∧
    (∀ c, (linspace01 c).length = c) ∧
    (∀ c j, 2 ≤ c → j < c →
      (linspace01 c).get? j = some ((j : Rat) / ((c : Rat) - 1))) := by
  have hlen : perm.length = N := by
    simpa using hperm.length_eq
  have hmemp : ∀ j ∈ perm, j < N := by
    intro j hj
    exact List.mem_range.mp (hperm.mem_iff.mp hj)
  have hget := Point_Renderer.buildVerts_get points N perm coords ex_points
    hrows hlen hmemp
  refine ⟨?_, ⟨perm.take 10000, ?_, ?_, ?_, ?_⟩, fun c => linspace01_length c,
    fun c j hc hj => linspace01_get c j hc hj⟩
  · intro row hrow
    obtain ⟨n, hn⟩ := List.mem_iff_get?.mp hrow
    rw [hget n] at hn
    cases hp : points.get? n with
    | none => rw [hp] at hn; simp at hn
    | some ri =>
        rw [hp, Option.map_some'] at hn
        have hn' := Option.some.inj hn
        subst hn'
        have hri : ri ∈ points := List.get?_mem hp
        have hvalid : ∀ j ∈ perm.take 10000, j < ri.length := by
          intro j hj
          rw [hrows ri hri]
          exact hmemp j ((List.take_sublist _ _).subset hj)
        have hs := length_filterMap_get ri _ hvalid
        have hs' : (List.filterMap (fun j => ri[j]?) (perm.take 10000)).length =
            (perm.take 10000).length := by simpa using hs
        cases coords with
        | false =>
            simp [List.length_append, hs, hs', List.length_take, hlen]
        | true =>
            simp [List.length_append, hs, hs', List.length_take, hlen,
              coordPoints_length]
            omega
  · rw [List.length_take, hlen]
  · exact (hperm.nodup_iff.mpr (List.nodup_range N)).sublist
      (List.take_sublist _ _)
  · intro j hj
    exact hmemp j ((List.take_sublist _ _).subset hj)
  · intro i ri hi
    rw [hget i, hi]
    rfl

/-- C4 witness: a single batch row of 30 points, identity permutation, no
extra points, axes enabled: the cloud has one row of
`30 + 3 * (30 / 10) = 39` points. -/
theorem point_cloud_subsample_and_axes_witness :
    (Point_Renderer.buildVerts pts1 (List.range 30) true none).length = 1 ∧
    ((Point_Renderer.buildVerts pts1 (List.range 30) true none).headD
        []).length = 39 := by
  have h := point_cloud_subsample_and_axes pts1 30 (List.range 30) true none
    (by simp [pts1]) (List.Perm.refl _)
  have hlen1 : (Point_Renderer.buildVerts pts1 (List.range 30) true
      none).length = 1 := by
    simp [Point_Renderer.buildVerts, gatherCols, pts1]
  refine ⟨hlen1, ?_⟩
  cases hb : Point_Renderer.buildVerts pts1 (List.range 30) true none with
  | nil => rw [hb] at hlen1; simp at hlen1
  | cons a l =>
      have ha : a ∈ Point_Renderer.buildVerts pts1 (List.range 30) true
          none := by
        rw [hb]
        exact List.mem_cons_self _ _
      have := h.1 a ha
      simpa using this

end RendererUtils
